import Mathlib

/-!
Shallow embedding of the WhataWatch scraper core
(src/listscraper/scrape_functions.py and src/letterboxdpy/diary.py).

Conventions of the embedding:
  - HTML documents are abstracted into structures holding, for each selector
    query the source performs, the result that query would return
    (an Option is none exactly when the corresponding find returns None or
    the attribute access would raise).
  - Python exceptions are modelled with the Except monad over PyErr;
    a try/except block that falls back to a value becomes a match that
    returns that value on the error side.
  - Python floats are modelled as rationals; at every input considered in
    the theorems below the float computations of the source are exact,
    so no rounding behaviour is lost.
  - The fetch capability is a function from URL to the parsed page
    (none for a non-success HTTP status), mirroring section 6 of the spec.
-/

deriving instance DecidableEq for Except

/-- Python exception kinds that the scraper code can raise. -/
inductive PyErr where
  | attributeError
  | typeError
  | valueError
  | indexError
  | keyError
  | nameError (missing : String)
  deriving DecidableEq, Repr

/-- A scalar cell value of the output record: either the caller-supplied
sentinel (np.nan for CSV output, None for JSON output), or a typed value.
The none constructor models a plain Python None stored as a value. -/
inductive Value where
  | sentinel
  | none
  | str (s : String)
  | int (n : Int)
  | float (q : ℚ)
  | strList (l : List String)
  deriving DecidableEq, Repr, Inhabited

/-- Maximal digit prefix length of a character list. -/
def digitRunLen (cs : List Char) : Nat :=
  (cs.takeWhile Char.isDigit).length

/-- Splits a character list into its maximal runs of consecutive digits,
mirroring re.findall of one or more digits. -/
def splitDigitRuns : List Char → List (List Char)
  | [] => []
  | c :: cs =>
    let rest := splitDigitRuns cs
    if c.isDigit then
      match cs with
      | d :: _ =>
        if d.isDigit then
          match rest with
          | r :: rs => (c :: r) :: rs
          | [] => [[c]]
        else [c] :: rest
      | [] => [[c]]
    else rest

/-- All maximal digit groups of a string, as strings, in order.
This is re.findall applied with the digit-group pattern. -/
def digitRuns (s : String) : List String :=
  (splitDigitRuns s.toList).map (fun l => String.mk l)

/-- Numeric value of a list of decimal digit characters. -/
def natOfDigits (cs : List Char) : Nat :=
  cs.foldl (fun a c => 10 * a + (c.toNat - '0'.toNat)) 0

/-- Strips leading and trailing whitespace, as str.strip with no argument. -/
def pyStrip (s : String) : String :=
  String.mk (((s.toList.dropWhile Char.isWhitespace).reverse.dropWhile
    Char.isWhitespace).reverse)

/-- Strips leading and trailing space characters only, as str.strip of a
single space used at line 278 of scrape_functions.py. -/
def stripSpaces (s : String) : String :=
  String.mk (((s.toList.dropWhile (· = ' ')).reverse.dropWhile (· = ' ')).reverse)

/-- Python int applied to a string: optional surrounding whitespace, an
optional sign, then one or more decimal digits; anything else raises
ValueError, modelled as none.  (Underscore digit grouping of Python
literals is not modelled; no input of the scraper contains it.) -/
def pyInt (s : String) : Option Int :=
  let cs := ((s.toList.dropWhile Char.isWhitespace).reverse.dropWhile
    Char.isWhitespace).reverse
  match cs with
  | [] => Option.none
  | '-' :: ds =>
    if !ds.isEmpty && ds.all Char.isDigit then some (-(natOfDigits ds : Int))
    else Option.none
  | '+' :: ds =>
    if !ds.isEmpty && ds.all Char.isDigit then some ((natOfDigits ds : Int))
    else Option.none
  | ds =>
    if ds.all Char.isDigit then some ((natOfDigits ds : Int)) else Option.none

/-- Unsigned part of Python float parsing: digits, optionally with one
decimal point, at least one digit overall.  Exponent forms never occur in
the scraped inputs and are not modelled. -/
def pyFloatCore (ds : List Char) : Option ℚ :=
  let ip := ds.takeWhile (· ≠ '.')
  match ds.dropWhile (· ≠ '.') with
  | [] =>
    if !ds.isEmpty && ds.all Char.isDigit then some ((natOfDigits ds : ℚ))
    else Option.none
  | '.' :: fp =>
    if ip.all Char.isDigit && fp.all Char.isDigit
        && (!ip.isEmpty || !fp.isEmpty) && !fp.contains '.' then
      some ((natOfDigits ip : ℚ) + (natOfDigits fp : ℚ) / (10 ^ fp.length))
    else Option.none
  | _ => Option.none

/-- Python float applied to a string; none models ValueError. -/
def pyFloat (s : String) : Option ℚ :=
  let cs := ((s.toList.dropWhile Char.isWhitespace).reverse.dropWhile
    Char.isWhitespace).reverse
  match cs with
  | '-' :: ds => (pyFloatCore ds).map (fun q => -q)
  | '+' :: ds => pyFloatCore ds
  | ds => pyFloatCore ds

/-- Python int applied to a float: truncation toward zero. -/
def pyTrunc (q : ℚ) : Int :=
  if 0 ≤ q then Rat.floor q else -(Rat.floor (-q))

/-- Star-glyph string for a rating of the given number of half stars:
one full star glyph per whole star and one half glyph for an odd half. -/
def starsKey (halves : Nat) : String :=
  String.join (List.replicate (halves / 2) "★")
    ++ (if halves % 2 = 1 then "½" else "")

/-- Modelled from the spec: valueToStars lives in
listscraper/utility_functions.py, which is not under src/.  Per section 4.1
of the spec it maps one of the 10 valid half-star increments to its glyph
string; an invalid value is a programming error (InvalidRating), modelled
here as the empty string.  The second argument mirrors the not_found
argument of the source signature and is unused for valid inputs. -/
def val2stars (v : ℚ) (_nf : Value) : String :=
  let h := 2 * v
  if h.den = 1 ∧ 1 ≤ h.num ∧ h.num ≤ 10 then starsKey h.num.toNat else ""

/-- Parses a glyph string as a number of half stars: a possibly empty run
of full-star glyphs optionally followed by one half glyph; none for any
other shape (including the empty string). -/
def starsParse (s : String) : Option Nat :=
  let cs := s.toList
  let k := (cs.takeWhile (· = '★')).length
  match cs.drop k with
  | [] => if k = 0 then Option.none else some (2 * k)
  | ['½'] => some (2 * k + 1)
  | _ => Option.none

/-- Modelled from the spec: starsToValue lives in
listscraper/utility_functions.py, which is not under src/.  Per section 4.1
of the spec it maps a sequence of full and half star glyphs to a rating in
the 10 valid increments, and yields the caller-supplied sentinel on
unrecognized input. -/
def stars2val (s : String) (nf : Value) : Value :=
  match starsParse s with
  | some h => if 1 ≤ h ∧ h ≤ 10 then Value.float ((h : ℚ) / 2) else nf
  | Option.none => nf

/-- Evaluation rule for stars2val on a string that parses to a valid
half-star count. -/
theorem stars2val_eval (s : String) (h : Nat) (hs : starsParse s = some h)
    (h1 : 1 ≤ h) (h2 : h ≤ 10) (nf : Value) :
    stars2val s nf = Value.float ((h : ℚ) / 2) := by
  simp [stars2val, hs, h1, h2]

/-- C8: for each of the 10 valid half-star rating increments, converting
the value to its star-glyph string and back reproduces the value exactly:
stars2val after val2stars is the identity on valid increments. -/
theorem rating_roundtrip_exact (k : Nat) (h1 : 1 ≤ k) (h2 : k ≤ 10)
    (nf : Value) :
    stars2val (val2stars ((k : ℚ) / 2) nf) nf = Value.float ((k : ℚ) / 2) := by
  have hv : val2stars ((k : ℚ) / 2) nf = starsKey k := by
    unfold val2stars
    rw [show (2 : ℚ) * ((k : ℚ) / 2) = (k : ℚ) by ring]
    rw [if_pos]
    · rw [Rat.num_natCast, Int.toNat_natCast]
    · refine ⟨Rat.den_natCast k, ?_, ?_⟩
      · rw [Rat.num_natCast]; exact_mod_cast h1
      · rw [Rat.num_natCast]; exact_mod_cast h2
  rw [hv]
  have hp : starsParse (starsKey k) = some k := by
    interval_cases k <;> decide
  unfold stars2val
  rw [hp]
  simp [h1, h2]

/-- Witness for C8 at the increment 3.5 stars. -/
theorem rating_roundtrip_witness :
    1 ≤ 7 ∧ 7 ≤ 10 ∧
      stars2val (val2stars ((7 : ℚ) / 2) Value.sentinel) Value.sentinel
        = Value.float ((7 : ℚ) / 2) :=
  ⟨by decide, by decide,
    rating_roundtrip_exact 7 (by decide) (by decide) Value.sentinel⟩

/-- Abstraction of the film list-entry fragment (the li element handed to
scrape_film).  Each field holds what the corresponding query of the source
would produce; none means the query fails (missing node or attribute). -/
structure FilmHtml where
  /-- Line 126: the data-target-link attribute of the first div; none when
  the div or the attribute is missing, in which case the access raises. -/
  data_target_link : Option String
  /-- Line 170: the data-owner-rating attribute; none raises KeyError,
  which the surrounding handler catches. -/
  data_owner_rating : Option String
  /-- Line 178: the text of the last span; none when there is no span, in
  which case the index raises and the handler catches it. -/
  last_span_text : Option String
  deriving DecidableEq, Repr

/-- The tab-details div of the film page (lines 197 to 233): link texts
for countries, languages and studios found inside it. -/
structure TabDetails where
  country_links : List String
  language_links : List String
  studio_links : List String
  deriving DecidableEq, Repr

/-- Abstraction of the fetched film detail page (film_soup). -/
structure FilmSoup where
  /-- Line 132: text of the h1 inside the col-17 div; none when either
  find returns None, so the text access raises AttributeError.  This
  lookup is not inside a try block. -/
  col17_h1_text : Option String
  /-- Lines 136 to 138: for each releaseyear div, the text of its a child
  (none when the div has no a child). -/
  releaseyear_texts : List (Option String)
  /-- Line 148: content of the twitter data1 meta tag; none when the tag
  is missing, so the attrs access raises AttributeError.  This lookup is
  not inside a try block. -/
  twitter_data1 : Option String
  /-- Line 155: texts of the anchors of the tab-cast div; none when the
  div is missing or an anchor has no contents. -/
  cast_links : Option (List String)
  /-- Line 164: content of the twitter data2 meta tag. -/
  twitter_data2 : Option String
  /-- Lines 185 to 186: texts of the text-slug anchors of the sluglist
  div; none when the div is missing. -/
  genre_links : Option (List String)
  /-- Line 192: text of the text-footer p element. -/
  footer_text : Option String
  /-- Lines 197 to 233: the tab-details div; none when it is missing. -/
  tab_details : Option TabDetails
  /-- Line 216: content of the description meta tag. -/
  description : Option String
  deriving DecidableEq, Repr

/-- Abstraction of the stats fragment page (lines 237 to 253): the title
attributes of the three tooltip anchors.  none models a find that returns
None (for example after an unparsable or error body), upon which the
title subscript raises TypeError outside any try block. -/
structure StatsSoup where
  watches_title : Option String
  lists_title : Option String
  likes_title : Option String
  deriving DecidableEq, Repr

/-- Abstraction of the rating-histogram fragment page (lines 256 to 294):
the text of the fans more-link anchor and the texts of the histogram bar
li elements. -/
structure HistSoup where
  fans_text : Option String
  bars : List String
  deriving DecidableEq, Repr

/-- The record assembled by scrape_film.  Python builds an insertion
ordered dict; every fixed key is assigned exactly once on every
successful run, so a structure represents it faithfully.  The histogram
bucket keys are dynamic (one per bar) and are kept as an ordered
association list. -/
structure FilmDict where
  film_title : Value
  release_year : Value
  director : Value
  cast : Value
  average_rating : Value
  owner_rating : Value
  genres : Value
  runtime : Value
  countries : Value
  original_language : Value
  spoken_languages : Value
  description : Value
  studios : Value
  watches : Value
  list_appearances : Value
  likes : Value
  fans : Value
  buckets : List (String × Int)
  total_ratings : Int
  film_url : Value
  deriving DecidableEq, Repr, Inhabited

/-- The letterboxd domain prefix (line 8). -/
def pyDomain : String := "https://letterboxd.com/"

/-- Lines 136 to 145: release year with its try block.  A missing second
releaseyear div, a missing anchor, or an unparsable year all yield 0, and
0 becomes the sentinel. -/
def releaseYearVal (texts : List (Option String)) (nf : Value) : Value :=
  let ry : Int :=
    if texts.length > 1 then
      match texts[1]? with
      | some (some t) =>
        let t := pyStrip t
        if t = "" then 0 else (pyInt t).getD 0
      | _ => 0
    else 0
  if ry = 0 then nf else Value.int ry

/-- Lines 154 to 160: cast list with the Show All entries removed; the
sentinel on any failure of the lookup. -/
def castVal (links : Option (List String)) (nf : Value) : Value :=
  match links with
  | some cast => Value.strList (cast.filter (· ≠ "Show All…"))
  | Option.none => nf

/-- Lines 163 to 166: average rating parsed as a float from the first
four characters of the meta content; the sentinel on any failure. -/
def avgRatingVal (content : Option String) (nf : Value) : Value :=
  match content with
  | some c =>
    match pyFloat (String.mk (c.toList.take 4)) with
    | some q => Value.float q
    | Option.none => nf
  | Option.none => nf

/-- Lines 176 to 181: the inner try block for film type lists, reading
the last span as a star glyph string. -/
def ownerRatingFallback (html : FilmHtml) (nf : Value) : Value :=
  match html.last_span_text with
  | some starval => stars2val starval nf
  | Option.none => nf

/-- Lines 169 to 181: owner rating.  A data-owner-rating attribute of 0
yields the sentinel; a non-integer attribute value raises inside the
outer try, landing in the fallback, as does a missing attribute. -/
def ownerRatingVal (html : FilmHtml) (nf : Value) : Value :=
  match html.data_owner_rating with
  | some sv =>
    if sv ≠ "0" then
      match pyInt sv with
      | some n => Value.float ((n : ℚ) / 2)
      | Option.none => ownerRatingFallback html nf
    else nf
  | Option.none => ownerRatingFallback html nf

/-- Lines 184 to 188: genres; an empty anchor list is stored as an empty
list, only a missing sluglist div yields the sentinel. -/
def genresVal (links : Option (List String)) (nf : Value) : Value :=
  match links with
  | some l => Value.strList l
  | Option.none => nf

/-- Lines 191 to 194: runtime, the first digit group of the footer text;
the sentinel when the footer or a digit group is missing. -/
def runtimeVal (footer : Option String) (nf : Value) : Value :=
  match footer with
  | some t =>
    match (digitRuns t).head? with
    | some r => Value.int ((natOfDigits r.toList : Int))
    | Option.none => nf
  | Option.none => nf

/-- Lines 196 to 202: countries; an empty list is replaced by the
sentinel. -/
def countriesVal (td : Option TabDetails) (nf : Value) : Value :=
  match td with
  | some td => if td.country_links = [] then nf else Value.strList td.country_links
  | Option.none => nf

/-- First-occurrence deduplication, the behaviour of sorting the set of
languages by first index at line 209. -/
def dedupFirst : List String → List String → List String
  | _, [] => []
  | seen, x :: xs =>
    if x ∈ seen then dedupFirst seen xs
    else x :: dedupFirst (x :: seen) xs

/-- Replacement of every non breaking space by a plain space, the
single-character str.replace call at line 207. -/
def replaceNbsp (s : String) : String :=
  String.mk (s.toList.map (fun c => if c = '\xa0' then ' ' else c))

/-- Lines 204 to 212: original and spoken languages, from one try block;
non breaking spaces are replaced and an empty language list makes both
fields the sentinel. -/
def languageVals (td : Option TabDetails) (nf : Value) : Value × Value :=
  match td with
  | some td =>
    let languages := td.language_links.map replaceNbsp
    match languages with
    | [] => (nf, nf)
    | l0 :: _ => (Value.str l0, Value.strList (dedupFirst [] languages))
  | Option.none => (nf, nf)

/-- Lines 215 to 218: description meta content; sentinel when missing. -/
def descriptionVal (content : Option String) (nf : Value) : Value :=
  match content with
  | some c => Value.str c
  | Option.none => nf

/-- Lines 227 to 233: studios; an empty list is replaced by the
sentinel. -/
def studiosVal (td : Option TabDetails) (nf : Value) : Value :=
  match td with
  | some td => if td.studio_links = [] then nf else Value.strList td.studio_links
  | Option.none => nf

/-- Lines 241 to 253: one stats number, as in watches at lines 241 to
243: the title attribute of a tooltip anchor has its digit groups joined
and parsed.  A missing anchor raises TypeError on the subscript and a
digit-free title raises ValueError inside int; neither is inside a try
block, so both abort scrape_film. -/
def parseStatTitle (title : Option String) : Except PyErr Int :=
  match title with
  | Option.none => Except.error PyErr.typeError
  | some t =>
    match pyInt (String.join (digitRuns t)) with
    | some n => Except.ok n
    | Option.none => Except.error PyErr.valueError

/-- Backtracking match of the fans pattern at the start of the input:
digits, any character, digits, optional K, with the alternative of
digits, optional K; returns the matched length.  This follows the
leftmost greedy backtracking of the regular expression at line 262. -/
def matchFansAlt (cs : List Char) : Option Nat :=
  let d := digitRunLen cs
  let first := (List.range d).findSome? (fun j =>
    let k := d - j
    match cs.drop k with
    | [] => Option.none
    | c :: rest2 =>
      if c = '\n' then Option.none
      else
        let e := digitRunLen rest2
        if e = 0 then Option.none
        else
          some (k + 1 + e +
            (match rest2.drop e with
             | 'K' :: _ => 1
             | _ => 0)))
  first <|>
    (if d = 0 then Option.none
     else some (d + (match cs.drop d with
       | 'K' :: _ => 1
       | _ => 0)))

/-- The first match of the fans pattern anywhere in the input, scanning
left to right; the source takes element 0 of findall. -/
def firstFansMatch : List Char → Option (List Char)
  | [] => Option.none
  | c :: cs =>
    match matchFansAlt (c :: cs) with
    | some n => some ((c :: cs).take n)
    | Option.none => firstFansMatch cs

/-- Lines 259 to 271: the fans count with its enclosing try block.  The
condition of the first branch in the source is a conjunction whose left
operand is a non-empty string literal, so it is equivalent to membership
of K in the match; the elif branch is therefore unreachable.  A missing
anchor, an empty match list, or a failed conversion all fall back to 0
through the except clause. -/
def fansOf (text : Option String) : Int :=
  match text with
  | Option.none => 0
  | some t =>
    match firstFansMatch t.toList with
    | Option.none => 0
    | some m =>
      let fans := String.mk m
      if fans.toList.contains 'K' then
        match pyFloat (String.mk m.dropLast) with
        | some q => pyTrunc (q * 1000)
        | Option.none => 0
      else
        match pyInt fans with
        | some n => n
        | Option.none => 0

/-- Lines 277 to 286: the count of one histogram bar.  An empty stripped
text is a zero bucket; otherwise the digit groups except the last (the
percentage) are joined and parsed, and a bar with fewer than two digit
groups makes int raise ValueError outside any try block. -/
def bucketCount (bar : String) : Except PyErr Int :=
  let s := stripSpaces bar
  if s = "" then Except.ok 0
  else
    match pyInt (String.join ((digitRuns s).dropLast)) with
    | some n => Except.ok n
    | Option.none => Except.error PyErr.valueError

/-- The ten zero buckets written at lines 289 to 292 when no bars are
present. -/
def zeroBuckets : List (String × Int) :=
  (List.range 10).map (fun i => (starsKey (i + 1), 0))

/-- Lines 276 to 286: the histogram loop, producing the bucket entries in
order together with the running total.  Adding a zero count for an empty
bar equals the source, which skips the addition in that branch. -/
def bucketsAux (i : Nat) : List String → Except PyErr (List (String × Int) × Int)
  | [] => Except.ok ([], 0)
  | b :: bs =>
    match bucketCount b with
    | Except.error e => Except.error e
    | Except.ok n =>
      match bucketsAux (i + 1) bs with
      | Except.error e => Except.error e
      | Except.ok (rest, tot) => Except.ok ((starsKey (i + 1), n) :: rest, n + tot)

/-- Lines 273 to 294: all histogram buckets and the ratings total; ten
zero buckets when the bar list is empty. -/
def computeBuckets (bars : List String) : Except PyErr (List (String × Int) × Int) :=
  if bars.isEmpty then Except.ok (zeroBuckets, 0) else bucketsAux 0 bars

/-- Lines 110 to 303: scrape_film.  The film page, the stats fragment and
the histogram fragment are the results of the three fetches the source
performs, supplied here through the fetch capability abstraction.  The
match chain follows the order of the statements of the source, so the
first failing unprotected lookup determines the raised error. -/
def scrape_film (html : FilmHtml) (soup : FilmSoup) (stats : StatsSoup)
    (hist : HistSoup) (nf : Value) : Except PyErr FilmDict :=
  match html.data_target_link with
  | Option.none => Except.error PyErr.attributeError
  | some card =>
    match soup.col17_h1_text with
    | Option.none => Except.error PyErr.attributeError
    | some title =>
      match soup.twitter_data1 with
      | Option.none => Except.error PyErr.attributeError
      | some director =>
        match parseStatTitle stats.watches_title,
            parseStatTitle stats.lists_title,
            parseStatTitle stats.likes_title with
        | Except.ok watches, Except.ok lists, Except.ok likes =>
          match computeBuckets hist.bars with
          | Except.error e => Except.error e
          | Except.ok (buckets, tot) =>
            Except.ok
              { film_title := Value.str title
                release_year := releaseYearVal soup.releaseyear_texts nf
                director := if director = "" then nf else Value.str director
                cast := castVal soup.cast_links nf
                average_rating := avgRatingVal soup.twitter_data2 nf
                owner_rating := ownerRatingVal html nf
                genres := genresVal soup.genre_links nf
                runtime := runtimeVal soup.footer_text nf
                countries := countriesVal soup.tab_details nf
                original_language := (languageVals soup.tab_details nf).1
                spoken_languages := (languageVals soup.tab_details nf).2
                description := descriptionVal soup.description nf
                studios := studiosVal soup.tab_details nf
                watches := Value.int watches
                list_appearances := Value.int lists
                likes := Value.int likes
                fans := Value.int (fansOf hist.fans_text)
                buckets := buckets
                total_ratings := tot
                film_url := Value.str (pyDomain ++ String.mk (card.toList.drop 1)) }
        | Except.error e, _, _ => Except.error e
        | Except.ok _, Except.error e, _ => Except.error e
        | Except.ok _, Except.ok _, Except.error e => Except.error e

/-- One item of a collection page, bundling the list fragment and the
three secondary documents its enrichment fetches return. -/
structure FilmItem where
  html : FilmHtml
  soup : FilmSoup
  stats : StatsSoup
  hist : HistSoup
  deriving DecidableEq, Repr

/-- A parsed collection page: its item fragments and the href of its next
anchor when present.  A fetch with a non-success status yields no page at
all; a page whose film table is missing or empty is a page with an empty
item list. -/
structure Page where
  items : List FilmItem
  next : Option String
  deriving DecidableEq, Repr

/-- The fetch capability for collection pages, as in section 6 of the
spec: none models a response status other than 200. -/
def Site : Type := String → Option Page

/-- Lines 62 to 106: scrape_page.  A failed fetch prints an error and
returns an empty film list with no soup; otherwise every item is passed
through scrape_film inside a try block whose except clause skips the
item, so exactly the successfully extracted records are returned. -/
def scrape_page (site : Site) (nf : Value) (url : String) :
    List FilmDict × Option Page :=
  match site url with
  | Option.none => ([], Option.none)
  | some pg =>
    (pg.items.filterMap
      (fun it => (scrape_film it.html it.soup it.stats it.hist nf).toOption),
     some pg)

/-- Outcome of a full crawl run with bounded fuel: the fuel ran out while
pages kept chaining, an exception escaped, or the loop ended normally
with the accumulated records. -/
inductive CrawlResult where
  | outOfFuel
  | err (e : PyErr)
  | ok (films : List FilmDict)
  deriving DecidableEq, Repr

/-- Prepends the films of earlier pages to the outcome of the remaining
crawl. -/
def appendFilms (fs : List FilmDict) : CrawlResult → CrawlResult
  | CrawlResult.outOfFuel => CrawlResult.outOfFuel
  | CrawlResult.err e => CrawlResult.err e
  | CrawlResult.ok gs => CrawlResult.ok (fs ++ gs)

/-- Lines 24 to 33: the full-crawl branch of scrape_list (page options
empty or star).  The loop extends the film list, looks for a next anchor
on the returned soup and follows it with the domain prefixed.  When the
fetch failed, scrape_page returned no soup, and the find call on None
raises AttributeError; there is no repeated-URL guard, so the only normal
exit is a page without a next anchor.  The fuel argument makes the
unbounded while loop a total function: outOfFuel means the loop was still
running after that many iterations. -/
def crawlFull (site : Site) (nf : Value) : String → Nat → CrawlResult
  | _, 0 => CrawlResult.outOfFuel
  | url, n + 1 =>
    match scrape_page site nf url with
    | (_, Option.none) => CrawlResult.err PyErr.attributeError
    | (films, some pg) =>
      match pg.next with
      | Option.none => CrawlResult.ok films
      | some href => appendFilms films (crawlFull site nf (pyDomain ++ href) n)

/-- Line 36: the page URL built for an explicitly selected page. -/
def pageUrl (base : String) (p : Nat) : String :=
  base ++ "page/" ++ toString p ++ "/"

/-- Lines 34 to 42: the explicit-pages branch of scrape_list.  Each page
is fetched independently inside a try block whose except clause logs and
continues; the embedded scrape_page is total, and a failed fetch
contributes an empty film list, so the loop is a plain concatenation. -/
def crawlExplicit (site : Site) (nf : Value) (base : String) :
    List Nat → List FilmDict
  | [] => []
  | p :: ps =>
    (scrape_page site nf (pageUrl base p)).1 ++ crawlExplicit site nf base ps

/-- The rating anchor of a diary entry: its data-rating attribute when
present, and its text. -/
structure RatingTag where
  data_rating : Option String
  text : String
  deriving DecidableEq, Repr

/-- One diary entry fragment (lines 359 to 408): the results of the
queries the per-entry extraction performs. -/
structure DiaryEntry where
  /-- Lines 362 to 365: the date tag cascade; none when every candidate
  is missing. -/
  date_text : Option String
  /-- Lines 369 to 371: the first anchor with an href, as text and href. -/
  film_link : Option (String × String)
  /-- Lines 374 to 375: the year tag text. -/
  year_text : Option String
  /-- Lines 378 to 390: the rating tag. -/
  rating_tag : Option RatingTag
  /-- Lines 393 to 394: the first p element text. -/
  review_text : Option String
  deriving DecidableEq, Repr

/-- A fetched diary page: its HTTP status and the entries the selector
cascade of lines 339 to 357 finds. -/
structure DiaryPage where
  status : Nat
  entries : List DiaryEntry
  deriving DecidableEq, Repr

/-- A diary record is an ordered association list, because the no-entries
fallback record has a different key set than ordinary entries. -/
abbrev DiaryRow : Type := List (String × Value)

/-- Strips round parenthesis characters from both ends, as the strip call
at line 375. -/
def stripParens (s : String) : String :=
  String.mk (((s.toList.dropWhile (fun c => c = '(' ∨ c = ')')).reverse.dropWhile
    (fun c => c = '(' ∨ c = ')')).reverse)

/-- Lines 359 to 412: extraction of one diary entry inside its try block.
The only raising step is float applied to a non-numeric data-rating
attribute (line 383, a ValueError not caught by any inner handler); the
except clause then skips the entry, modelled as none.  The inner rating
text conversion at lines 387 to 390 has its own handler and falls back
to the raw text. -/
def diaryRatingVal (e : DiaryEntry) : Option Value :=
  match e.rating_tag with
  | Option.none => some Value.none
  | some rt =>
    match rt.data_rating with
    | some a =>
      match pyFloat a with
      | some q => some (Value.float q)
      | Option.none => Option.none
    | Option.none =>
      match pyFloat rt.text with
      | some q => some (Value.float q)
      | Option.none => some (Value.str rt.text)

/-- The remainder of the per-entry extraction: the non-raising field
lookups and the record literal appended at lines 400 to 408. -/
def mkDiaryRow (e : DiaryEntry) : Option DiaryRow :=
  let date := match e.date_text with
    | some t => t
    | Option.none => ""
  let film_title := match e.film_link with
    | some (txt, _) => txt
    | Option.none => ""
  let film_url := match e.film_link with
    | some (_, href) => "https://letterboxd.com" ++ href
    | Option.none => ""
  let year := match e.year_text with
    | some t => stripParens t
    | Option.none => ""
  let review := match e.review_text with
    | some t => t
    | Option.none => ""
  match diaryRatingVal e with
  | Option.none => Option.none
  | some rating =>
    some [("date", Value.str date),
          ("film_title", Value.str film_title),
          ("year", Value.str year),
          ("rating", rating),
          ("review", Value.str review),
          ("film_url", Value.str film_url),
          ("director", Value.str "")]

/-- The keys of an ordinary diary record, in insertion order. -/
def diaryKeys : List String :=
  ["date", "film_title", "year", "rating", "review", "film_url", "director"]

/-- The fallback record returned at line 419 when no entries were found. -/
def noteRow : DiaryRow :=
  [("note", Value.str "no diary entries found")]

/-- Lines 322 to 415: the page loop of scrape_diary.  A page with a
non-success status or without entries is skipped with continue.  A page
with entries has its rows appended, after which line 415 evaluates
time.sleep: scrape_functions.py never imports time, so the name lookup
raises NameError and the accumulated films are lost. -/
def diaryLoop (site : Nat → DiaryPage) (films : List DiaryRow) :
    List Nat → Except PyErr (List DiaryRow)
  | [] => Except.ok films
  | p :: ps =>
    let pg := site p
    if pg.status ≠ 200 then diaryLoop site films ps
    else if pg.entries.isEmpty then diaryLoop site films ps
    else
      let _filmsNext := films ++ pg.entries.filterMap mkDiaryRow
      Except.error (PyErr.nameError "time")

/-- Lines 305 to 420: scrape_diary.  Empty page options default to page 1
only; after the loop, an empty film list is replaced by the single note
record so that the caller always receives a non-empty list when the
function returns at all. -/
def scrape_diary (site : Nat → DiaryPage) (page_options : List Nat) :
    Except PyErr (List DiaryRow) :=
  let pages := if page_options = [] then [1] else page_options
  match diaryLoop site [] pages with
  | Except.error e => Except.error e
  | Except.ok films =>
    if films = [] then Except.ok [noteRow] else Except.ok films

/-- A Python object as handled by the diary normalization of
src/letterboxdpy/diary.py: scalars, dictionaries in insertion order, and
lists. -/
inductive PyObj where
  | str (s : String)
  | int (n : Int)
  | bool (b : Bool)
  | null
  | dict (entries : List (String × PyObj))
  | list (elems : List PyObj)
  deriving Repr

/-- The isinstance dict test. -/
def isPyDict : PyObj → Bool
  | PyObj.dict _ => true
  | _ => false

/-- Python truthiness of an object. -/
def pyTruthy : PyObj → Bool
  | PyObj.str s => !s.isEmpty
  | PyObj.int n => n ≠ 0
  | PyObj.bool b => b
  | PyObj.null => false
  | PyObj.dict d => !d.isEmpty
  | PyObj.list l => !l.isEmpty

/-- Dictionary key lookup; the modelled dictionaries come from parsed
JSON and have distinct keys, so first-match lookup is faithful. -/
def dictLookup (d : List (String × PyObj)) (k : String) : Option PyObj :=
  (d.find? (fun p => p.1 == k)).map (fun p => p.2)

/-- A single-quote character as a string, for the Python repr below. -/
def pyQuote : String := String.singleton (Char.ofNat 39)

mutual

/-- Python repr of an object, used by str on containers.  String escaping
inside repr is not modelled; no theorem below inspects these strings. -/
def pyRepr : PyObj → String
  | PyObj.str s => pyQuote ++ s ++ pyQuote
  | PyObj.int n => toString n
  | PyObj.bool b => if b then "True" else "False"
  | PyObj.null => "None"
  | PyObj.dict d => "\x7b" ++ String.intercalate ", " (pyReprEntries d) ++ "\x7d"
  | PyObj.list l => "[" ++ String.intercalate ", " (pyReprElems l) ++ "]"

/-- Repr of the key-value pairs of a dictionary. -/
def pyReprEntries : List (String × PyObj) → List String
  | [] => []
  | (k, v) :: rest => (pyQuote ++ k ++ pyQuote ++ ": " ++ pyRepr v) :: pyReprEntries rest

/-- Repr of the elements of a list. -/
def pyReprElems : List PyObj → List String
  | [] => []
  | v :: rest => pyRepr v :: pyReprElems rest

end

/-- Python str of an object: the string itself for strings, repr
otherwise. -/
def pyStr : PyObj → String
  | PyObj.str s => s
  | v => pyRepr v

/-- Python int applied to an object: ints pass through, strings are
parsed, booleans coerce; anything else raises, modelled as none. -/
def pyToInt : PyObj → Option Int
  | PyObj.int n => some n
  | PyObj.str s => pyInt s
  | PyObj.bool b => some (if b then 1 else 0)
  | _ => Option.none

/-- Lines 94 to 111 of diary.py: reduction of the raw entries object to a
flat list.  Shape one, a dict holding an entries dict, takes its values;
shape two, a dict of dicts, takes the values; the fallback flattens any
list values, else yields the empty list; a plain list passes through and
every other object yields the empty list. -/
def normalizeEntries : PyObj → List PyObj
  | PyObj.dict d =>
    match dictLookup d "entries" with
    | some (PyObj.dict m) => m.map (fun p => p.2)
    | _ =>
      if d.all (fun p => isPyDict p.2) then d.map (fun p => p.2)
      else
        let possible := d.filterMap (fun p =>
          match p.2 with
          | PyObj.list l => some l
          | _ => Option.none)
        if possible.isEmpty then [] else possible.flatten
  | PyObj.list l => l
  | _ => []

/-- Zero-padded decimal rendering, as the Python format specifiers 04d
and 02d at line 127 of diary.py. -/
def padInt (w : Nat) (n : Int) : String :=
  let digits := toString n.natAbs
  let sign := if n < 0 then "-" else ""
  if w ≤ sign.length + digits.length then sign ++ digits
  else sign ++ String.mk (List.replicate (w - (sign.length + digits.length)) '0')
    ++ digits

/-- One date component is usable when the key is present and not None
(line 125 of diary.py). -/
def dateKeyOk (dd : List (String × PyObj)) (k : String) : Bool :=
  match dictLookup dd k with
  | some PyObj.null => false
  | some _ => true
  | Option.none => false

/-- Lines 123 to 131 of diary.py: the formatted date string.  All three
parts present and int-coercible format as an ISO date; a coercion failure
falls back to str of the date object through the except clause, and an
empty date object yields the empty string. -/
def dateStr (dd : List (String × PyObj)) : String :=
  if !dd.isEmpty && dateKeyOk dd "year" && dateKeyOk dd "month"
      && dateKeyOk dd "day" then
    match (dictLookup dd "year").bind pyToInt,
        (dictLookup dd "month").bind pyToInt,
        (dictLookup dd "day").bind pyToInt with
    | some y, some m, some d =>
      padInt 4 y ++ "-" ++ padInt 2 m ++ "-" ++ padInt 2 d
    | _, _, _ => pyStr (PyObj.dict dd)
  else if !dd.isEmpty then pyStr (PyObj.dict dd) else ""

/-- Python dict get with a default. -/
def pyGet (d : List (String × PyObj)) (k : String) (dflt : PyObj) : PyObj :=
  (dictLookup d k).getD dflt

/-- The pattern entry get of a key with empty-string default, then an
or with the empty string: falsy values collapse to the empty string
(lines 134 to 138 of diary.py). -/
def getOrEmpty (d : List (String × PyObj)) (k : String) : PyObj :=
  let v := pyGet d k (PyObj.str "")
  if pyTruthy v then v else PyObj.str ""

/-- Lines 146 to 152 of diary.py: the scalar coercion pass over row
values: booleans become 1 or 0, None becomes the empty string, and
everything else its textual form. -/
def coerceScalar (v : PyObj) : String :=
  match v with
  | PyObj.bool b => if b then "1" else "0"
  | PyObj.null => ""
  | _ => pyStr v

/-- The canonical output schema of the diary CSV (line 117 of diary.py),
in declared order. -/
def csvFieldnames : List String :=
  ["name", "slug", "id", "release", "runtime", "rewatched", "rating",
   "liked", "reviewed", "date"]

/-- Lines 121 to 153 of diary.py: assembly of one CSV row from an entry
dict, including the scalar coercion pass.  Date and the action fields use
plain get; the top-level text fields collapse falsy values to the empty
string. -/
def mkCsvRow (d : List (String × PyObj)) : List (String × String) :=
  let actions := match dictLookup d "actions" with
    | some (PyObj.dict a) => a
    | _ => []
  let dd := match dictLookup d "date" with
    | some (PyObj.dict x) => x
    | _ => []
  [("name", coerceScalar (getOrEmpty d "name")),
   ("slug", coerceScalar (getOrEmpty d "slug")),
   ("id", coerceScalar (getOrEmpty d "id")),
   ("release", coerceScalar (getOrEmpty d "release")),
   ("runtime", coerceScalar (getOrEmpty d "runtime")),
   ("rewatched", coerceScalar (pyGet actions "rewatched" (PyObj.str ""))),
   ("rating", coerceScalar (pyGet actions "rating" (PyObj.str ""))),
   ("liked", coerceScalar (pyGet actions "liked" (PyObj.str ""))),
   ("reviewed", coerceScalar (pyGet actions "reviewed" (PyObj.str ""))),
   ("date", dateStr dd)]

/-- Lines 88 to 153 of diary.py: the full normalization from the raw
entries object to the list of CSV rows.  A falsy entries object is
reported as no entries and produces no rows; otherwise the normalized
list is filtered to dicts (line 114) and each becomes one row. -/
def rowsOfEntries (l : List PyObj) : List (List (String × String)) :=
  l.filterMap (fun e =>
    match e with
    | PyObj.dict d => some (mkCsvRow d)
    | _ => Option.none)

/-- Lines 88 to 153 of diary.py, continued: a falsy entries object is
reported as no entries and produces no rows; otherwise the normalized
list yields one row per entry dict. -/
def buildRows (entries : PyObj) : List (List (String × String)) :=
  if pyTruthy entries then rowsOfEntries (normalizeEntries entries)
  else []

/-- A concrete list fragment on which scrape_film succeeds.  The owner
rating attribute is the string 0, which the source maps to the sentinel
without touching the fallback. -/
def sampleHtml : FilmHtml :=
  { data_target_link := some "/film/sample-film/"
    data_owner_rating := some "0"
    last_span_text := Option.none }

/-- A concrete film page on which every unprotected lookup succeeds. -/
def sampleSoup : FilmSoup :=
  { col17_h1_text := some "Sample Film"
    releaseyear_texts := [some "Sample Film", some "1999"]
    twitter_data1 := some "Jane Doe"
    cast_links := some ["Actor A", "Show All…", "Actor B"]
    twitter_data2 := Option.none
    genre_links := some ["Drama"]
    footer_text := some "101 mins"
    tab_details := some { country_links := ["USA"]
                          language_links := ["English", "French", "English"]
                          studio_links := ["Studio X"] }
    description := some "A sample description." }

/-- A concrete stats fragment with all three tooltip titles present. -/
def sampleStats : StatsSoup :=
  { watches_title := some "Watched by 3,482 members"
    lists_title := some "Appears in 12 lists"
    likes_title := some "Liked by 1,024 members" }

/-- A concrete histogram fragment whose ten bars carry the counts
1,0,2,0,3,0,4,0,5,0: an empty bar text is the zero-count case of the
source, and a non-empty bar ends in its percentage digit group. -/
def sampleHist : HistSoup :=
  { fans_text := some "870 fans"
    bars := ["1 ratings (9%)", "", "2 ratings (18%)", "", "3 ratings (27%)",
             "", "4 ratings (36%)", "", "5 ratings (45%)", ""] }

/-- The record scrape_film produces on the sample inputs. -/
def sampleDict : FilmDict :=
  { film_title := Value.str "Sample Film"
    release_year := Value.int 1999
    director := Value.str "Jane Doe"
    cast := Value.strList ["Actor A", "Actor B"]
    average_rating := Value.sentinel
    owner_rating := Value.sentinel
    genres := Value.strList ["Drama"]
    runtime := Value.int 101
    countries := Value.strList ["USA"]
    original_language := Value.str "English"
    spoken_languages := Value.strList ["English", "French"]
    description := Value.str "A sample description."
    studios := Value.strList ["Studio X"]
    watches := Value.int 3482
    list_appearances := Value.int 12
    likes := Value.int 1024
    fans := Value.int 870
    buckets := [("½", 1), ("★", 0), ("★½", 2), ("★★", 0), ("★★½", 3),
                ("★★★", 0), ("★★★½", 4), ("★★★★", 0), ("★★★★½", 5),
                ("★★★★★", 0)]
    total_ratings := 15
    film_url := Value.str "https://letterboxd.com/film/sample-film/" }

/-- On the sample inputs scrape_film succeeds and produces exactly the
sample record. -/
theorem sample_scrape_ok :
    scrape_film sampleHtml sampleSoup sampleStats sampleHist Value.sentinel
      = Except.ok sampleDict := by decide

/-- C1, amended: per-field isolation holds for the fields whose
extraction sits inside a per-field exception handler, witnessed by the
Cast field: on any input on which scrape_film succeeds, making the cast
lookup fail changes exactly the Cast field to the sentinel and leaves
every other field of the record unchanged. -/
theorem scrape_film_cast_miss_isolated (html : FilmHtml) (soup : FilmSoup)
    (stats : StatsSoup) (hist : HistSoup) (nf : Value) (d : FilmDict)
    (h : scrape_film html soup stats hist nf = Except.ok d) :
    scrape_film html { soup with cast_links := Option.none } stats hist nf
      = Except.ok { d with cast := nf } := by
  unfold scrape_film at h ⊢
  dsimp only
  cases hA : html.data_target_link with
  | none => rw [hA] at h; simp at h
  | some card =>
  rw [hA] at h
  cases hB : soup.col17_h1_text with
  | none => rw [hB] at h; simp at h
  | some title =>
  rw [hB] at h
  cases hC : soup.twitter_data1 with
  | none => rw [hC] at h; simp at h
  | some director =>
  rw [hC] at h
  cases hW : parseStatTitle stats.watches_title with
  | error e => rw [hW] at h; simp at h
  | ok watches =>
  rw [hW] at h
  cases hL : parseStatTitle stats.lists_title with
  | error e => rw [hL] at h; simp at h
  | ok lists =>
  rw [hL] at h
  cases hK : parseStatTitle stats.likes_title with
  | error e => rw [hK] at h; simp at h
  | ok likes =>
  rw [hK] at h
  cases hBk : computeBuckets hist.bars with
  | error e => rw [hBk] at h; simp at h
  | ok pr =>
  obtain ⟨buckets, tot⟩ := pr
  rw [hBk] at h
  dsimp only at h ⊢
  rw [Except.ok.injEq] at h ⊢
  rw [← h]
  simp [castVal]

/-- C1, counterexample to the claim as stated: on a film page whose
twitter data1 meta tag is missing, the Director lookup at line 148 is not
inside a try block, so scrape_film raises AttributeError and no record is
produced at all, instead of a record with Director set to the sentinel
and the other fields unaffected. -/
theorem scrape_film_director_missing_aborts :
    scrape_film sampleHtml { sampleSoup with twitter_data1 := Option.none }
      sampleStats sampleHist Value.sentinel
      = Except.error PyErr.attributeError := by decide

/-- Witness for C1 at the sample inputs. -/
theorem scrape_film_cast_miss_isolated_witness :
    scrape_film sampleHtml { sampleSoup with cast_links := Option.none }
      sampleStats sampleHist Value.sentinel
      = Except.ok { sampleDict with cast := Value.sentinel } :=
  scrape_film_cast_miss_isolated sampleHtml sampleSoup sampleStats sampleHist
    Value.sentinel sampleDict sample_scrape_ok

/-- The total accumulated by the histogram loop equals the sum of the
bucket counts it stores: an empty bar stores zero and contributes
nothing, and a parsed bar contributes exactly its stored count. -/
theorem bucketsAux_sum (bs : List String) :
    ∀ (i : Nat) (bl : List (String × Int)) (t : Int),
      bucketsAux i bs = Except.ok (bl, t) → t = (bl.map Prod.snd).sum := by
  induction bs with
  | nil =>
    intro i bl t h
    simp [bucketsAux] at h
    obtain ⟨h1, h2⟩ := h
    subst h1; subst h2; simp
  | cons b bs ih =>
    intro i bl t h
    unfold bucketsAux at h
    cases hc : bucketCount b with
    | error e => rw [hc] at h; simp at h
    | ok n =>
    rw [hc] at h
    cases hr : bucketsAux (i + 1) bs with
    | error e => rw [hr] at h; simp at h
    | ok pr =>
    obtain ⟨rest, tot⟩ := pr
    rw [hr] at h
    simp at h
    obtain ⟨h1, h2⟩ := h
    subst h1; subst h2
    simp [ih _ _ _ hr]

/-- Both branches of the histogram assembly satisfy the sum invariant:
the ten explicit zero buckets sum to zero, and the loop total is the sum
of the stored counts. -/
theorem computeBuckets_sum (bars : List String) (bl : List (String × Int))
    (t : Int) (h : computeBuckets bars = Except.ok (bl, t)) :
    t = (bl.map Prod.snd).sum := by
  unfold computeBuckets at h
  by_cases he : bars.isEmpty
  · rw [if_pos he] at h
    simp at h
    obtain ⟨h1, h2⟩ := h
    subst h1; subst h2; decide
  · rw [if_neg he] at h
    exact bucketsAux_sum bars 0 bl t h

/-- C2: on every record scrape_film produces, the Total ratings field
equals the sum of the counts stored in the rating-histogram bucket
fields; with no bars present all ten buckets are written as zero and the
total is zero. -/
theorem scrape_film_total_ratings_eq_bucket_sum (html : FilmHtml)
    (soup : FilmSoup) (stats : StatsSoup) (hist : HistSoup) (nf : Value)
    (d : FilmDict) (h : scrape_film html soup stats hist nf = Except.ok d) :
    d.total_ratings = (d.buckets.map Prod.snd).sum
      ∧ (hist.bars = [] → d.buckets = zeroBuckets ∧ d.total_ratings = 0) := by
  unfold scrape_film at h
  cases hA : html.data_target_link with
  | none => rw [hA] at h; simp at h
  | some card =>
  rw [hA] at h
  cases hB : soup.col17_h1_text with
  | none => rw [hB] at h; simp at h
  | some title =>
  rw [hB] at h
  cases hC : soup.twitter_data1 with
  | none => rw [hC] at h; simp at h
  | some director =>
  rw [hC] at h
  cases hW : parseStatTitle stats.watches_title with
  | error e => rw [hW] at h; simp at h
  | ok watches =>
  rw [hW] at h
  cases hL : parseStatTitle stats.lists_title with
  | error e => rw [hL] at h; simp at h
  | ok lists =>
  rw [hL] at h
  cases hK : parseStatTitle stats.likes_title with
  | error e => rw [hK] at h; simp at h
  | ok likes =>
  rw [hK] at h
  cases hBk : computeBuckets hist.bars with
  | error e => rw [hBk] at h; simp at h
  | ok pr =>
  obtain ⟨buckets, tot⟩ := pr
  rw [hBk] at h
  dsimp only at h
  rw [Except.ok.injEq] at h
  rw [← h]
  constructor
  · exact computeBuckets_sum hist.bars buckets tot hBk
  · intro hbars
    rw [hbars] at hBk
    rw [show computeBuckets [] = Except.ok (zeroBuckets, 0) from rfl] at hBk
    simp at hBk
    obtain ⟨h1, h2⟩ := hBk
    subst h1; subst h2
    exact ⟨rfl, rfl⟩

/-- Witness for C2 at the sample inputs, whose bars carry the counts
1,0,2,0,3,0,4,0,5,0 and whose total is 15. -/
theorem scrape_film_total_ratings_witness :
    scrape_film sampleHtml sampleSoup sampleStats sampleHist Value.sentinel
        = Except.ok sampleDict
      ∧ sampleDict.total_ratings = (sampleDict.buckets.map Prod.snd).sum
      ∧ sampleDict.total_ratings = 15 :=
  ⟨sample_scrape_ok,
   (scrape_film_total_ratings_eq_bucket_sum sampleHtml sampleSoup sampleStats
     sampleHist Value.sentinel sampleDict sample_scrape_ok).1,
   rfl⟩

/-- C4, amended: a failed rating-histogram fetch (no fans anchor, no
bars) degrades exactly the fields derived from it: the record is still
produced, with Fans 0, ten zero buckets and a zero ratings total, and
every other field unchanged. -/
theorem scrape_film_hist_failure_degrades (html : FilmHtml) (soup : FilmSoup)
    (stats : StatsSoup) (hist : HistSoup) (nf : Value) (d : FilmDict)
    (h : scrape_film html soup stats hist nf = Except.ok d) :
    scrape_film html soup stats { fans_text := Option.none, bars := [] } nf
      = Except.ok
          { d with
            fans := Value.int 0
            buckets := zeroBuckets
            total_ratings := 0 } := by
  unfold scrape_film at h ⊢
  cases hA : html.data_target_link with
  | none => rw [hA] at h; simp at h
  | some card =>
  rw [hA] at h
  cases hB : soup.col17_h1_text with
  | none => rw [hB] at h; simp at h
  | some title =>
  rw [hB] at h
  cases hC : soup.twitter_data1 with
  | none => rw [hC] at h; simp at h
  | some director =>
  rw [hC] at h
  cases hW : parseStatTitle stats.watches_title with
  | error e => rw [hW] at h; simp at h
  | ok watches =>
  rw [hW] at h
  cases hL : parseStatTitle stats.lists_title with
  | error e => rw [hL] at h; simp at h
  | ok lists =>
  rw [hL] at h
  cases hK : parseStatTitle stats.likes_title with
  | error e => rw [hK] at h; simp at h
  | ok likes =>
  rw [hK] at h
  cases hBk : computeBuckets hist.bars with
  | error e => rw [hBk] at h; simp at h
  | ok pr =>
  obtain ⟨buckets, tot⟩ := pr
  rw [hBk] at h
  dsimp only at h ⊢
  rw [show computeBuckets [] = Except.ok (zeroBuckets, 0) from rfl]
  dsimp only
  rw [Except.ok.injEq] at h ⊢
  rw [← h]
  simp [fansOf]

/-- C4, counterexample to the claim as stated: when the stats fragment
fetch yields an unparsable body, the three tooltip anchors are missing,
the title subscript on None raises TypeError outside any try block, and
scrape_film produces no record at all instead of a degraded one. -/
theorem scrape_film_stats_failure_aborts :
    scrape_film sampleHtml sampleSoup
      { watches_title := Option.none, lists_title := Option.none,
        likes_title := Option.none }
      sampleHist Value.sentinel
      = Except.error PyErr.typeError := by decide

/-- Witness for C4 at the sample inputs. -/
theorem scrape_film_hist_failure_degrades_witness :
    scrape_film sampleHtml sampleSoup sampleStats
      { fans_text := Option.none, bars := [] } Value.sentinel
      = Except.ok
          { sampleDict with
            fans := Value.int 0
            buckets := zeroBuckets
            total_ratings := 0 } :=
  scrape_film_hist_failure_degrades sampleHtml sampleSoup sampleStats
    sampleHist Value.sentinel sampleDict sample_scrape_ok

/-- A site on which the next reference of page 3 repeats the URL of
page 2: the full-crawl scenario of C3. -/
def echoSite : Site := fun u =>
  if u = pyDomain ++ "user/list/echo/" then
    some { items := [], next := some "echo/page2/" }
  else if u = pyDomain ++ "echo/page2/" then
    some { items := [], next := some "echo/page3/" }
  else if u = pyDomain ++ "echo/page3/" then
    some { items := [], next := some "echo/page2/" }
  else Option.none

/-- One unfolding of the crawl loop from page 2 of the echo site. -/
theorem echo_step2 (nf : Value) (n : Nat) :
    crawlFull echoSite nf (pyDomain ++ "echo/page2/") (n + 1)
      = appendFilms [] (crawlFull echoSite nf (pyDomain ++ "echo/page3/") n) := by
  rfl

/-- One unfolding of the crawl loop from page 3 of the echo site: the
next reference leads back to page 2. -/
theorem echo_step3 (nf : Value) (n : Nat) :
    crawlFull echoSite nf (pyDomain ++ "echo/page3/") (n + 1)
      = appendFilms [] (crawlFull echoSite nf (pyDomain ++ "echo/page2/") n) := by
  rfl

/-- The crawl loop cycles between pages 2 and 3 of the echo site and
never leaves the loop, whatever the fuel. -/
theorem echo_cycle (nf : Value) :
    ∀ n : Nat,
      crawlFull echoSite nf (pyDomain ++ "echo/page2/") n = CrawlResult.outOfFuel
      ∧ crawlFull echoSite nf (pyDomain ++ "echo/page3/") n
          = CrawlResult.outOfFuel := by
  intro n
  induction n with
  | zero => exact ⟨rfl, rfl⟩
  | succ n ih =>
    constructor
    · rw [echo_step2 nf n, ih.2]; rfl
    · rw [echo_step3 nf n, ih.1]; rfl

/-- The full crawl of the echo site never terminates, whatever the
fuel. -/
theorem echo_crawl_out (nf : Value) (n : Nat) :
    crawlFull echoSite nf (pyDomain ++ "user/list/echo/") n
      = CrawlResult.outOfFuel := by
  cases n with
  | zero => rfl
  | succ n =>
    rw [show crawlFull echoSite nf (pyDomain ++ "user/list/echo/") (n + 1)
        = appendFilms [] (crawlFull echoSite nf (pyDomain ++ "echo/page2/") n)
      from rfl]
    rw [(echo_cycle nf n).1]; rfl

/-- C3, amended: the full-crawl loop of scrape_list has no repeated-URL
guard; it leaves the loop only at a page without a next anchor (or by an
exception on a failed fetch).  On a site whose page 3 names the URL of
page 2 as next, the crawl never terminates: for every fuel bound it is
still looping. -/
theorem crawlFull_echo_never_terminates (nf : Value) (n : Nat) :
    crawlFull echoSite nf (pyDomain ++ "user/list/echo/") n
      = CrawlResult.outOfFuel :=
  echo_crawl_out nf n

/-- C3, counterexample to the claim as stated: on the echo site the
crawl does not terminate after page 3; there is no fuel bound at which
the loop has finished. -/
theorem crawlFull_echo_not_terminating :
    ¬ ∃ n : Nat,
        crawlFull echoSite Value.sentinel (pyDomain ++ "user/list/echo/") n
          ≠ CrawlResult.outOfFuel := by
  rintro ⟨n, hn⟩
  exact hn (echo_crawl_out Value.sentinel n)

/-- A site whose page 2, reached through the next reference of the start
page, fails to fetch. -/
def chainFailSite : Site := fun u =>
  if u = pyDomain ++ "user/list/chain/" then
    some { items := [], next := some "chain/page2/" }
  else Option.none

/-- The base URL of the explicit-pages witness site. -/
def listBase : String := "https://letterboxd.com/testuser/list/sample/"

/-- The sample item, bundled for page-level runs. -/
def sampleItem : FilmItem :=
  { html := sampleHtml, soup := sampleSoup, stats := sampleStats,
    hist := sampleHist }

/-- An explicit-pages site on which page 2 succeeds with one item and
every other page, page 5 in particular, fails to fetch. -/
def site25 : Site := fun u =>
  if u = pageUrl listBase 2 then some { items := [sampleItem], next := Option.none }
  else Option.none

/-- The explicit-pages loop is a plain concatenation of the per-page
results of scrape_page. -/
theorem crawlExplicit_flatten (site : Site) (nf : Value) (base : String) :
    ∀ pages : List Nat,
      crawlExplicit site nf base pages
        = (pages.map (fun p => (scrape_page site nf (pageUrl base p)).1)).flatten := by
  intro pages
  induction pages with
  | nil => rfl
  | cons p ps ih => simp [crawlExplicit, ih]

/-- C5, amended: in explicit-pages mode a failed page contributes no
films and raises nothing, the crawl being the concatenation of the
per-page results with failed pages empty; in full-crawl mode a failed
page instead raises AttributeError to the caller, because the next
lookup is performed on the absent soup. -/
theorem crawl_failed_page_behaviour :
    (∀ (site : Site) (nf : Value) (base : String) (pages : List Nat),
      crawlExplicit site nf base pages
        = (pages.map (fun p => (scrape_page site nf (pageUrl base p)).1)).flatten)
    ∧ (∀ (site : Site) (nf : Value) (url : String), site url = Option.none →
        scrape_page site nf url = ([], Option.none))
    ∧ (∀ (site : Site) (nf : Value) (url : String) (n : Nat),
        site url = Option.none →
        crawlFull site nf url (n + 1) = CrawlResult.err PyErr.attributeError) := by
  refine ⟨fun site nf base => crawlExplicit_flatten site nf base, ?_, ?_⟩
  · intro site nf url h
    unfold scrape_page
    rw [h]
  · intro site nf url n h
    unfold crawlFull scrape_page
    rw [h]

/-- C5, counterexample to the claim as stated: on the chain site, the
full crawl reaches the failing page 2 through the next reference and
raises AttributeError to the caller instead of quietly terminating the
next chain. -/
theorem crawlFull_failed_page_raises :
    crawlFull chainFailSite Value.sentinel (pyDomain ++ "user/list/chain/") 5
      = CrawlResult.err PyErr.attributeError := by decide

/-- Witness for C5: on the explicit page set 2 and 5 with page 5
failing, the crawl equals the concatenation of the per-page results,
page 5 contributes nothing, no error is raised, and the result is
exactly the record of page 2. -/
theorem crawl_failed_page_behaviour_witness :
    site25 (pageUrl listBase 5) = Option.none
    ∧ crawlExplicit site25 Value.sentinel listBase [2, 5]
        = (([2, 5] : List Nat).map
            (fun p => (scrape_page site25 Value.sentinel (pageUrl listBase p)).1)).flatten
    ∧ crawlFull site25 Value.sentinel (pageUrl listBase 5) 3
        = CrawlResult.err PyErr.attributeError
    ∧ crawlExplicit site25 Value.sentinel listBase [2, 5] = [sampleDict] :=
  ⟨by decide,
   crawl_failed_page_behaviour.1 site25 Value.sentinel listBase [2, 5],
   crawl_failed_page_behaviour.2.2 site25 Value.sentinel (pageUrl listBase 5) 2
     (by decide),
   by decide⟩

/-- Every successful diary page loop returns exactly its incoming
accumulator: a page either fails to fetch, or has no entries, or is
processed and then hits the missing time import, which raises. -/
theorem diaryLoop_ok (site : Nat → DiaryPage) :
    ∀ (pages : List Nat) (films l : List DiaryRow),
      diaryLoop site films pages = Except.ok l → l = films := by
  intro pages
  induction pages with
  | nil =>
    intro films l h
    simp [diaryLoop] at h
    exact h.symm
  | cons p ps ih =>
    intro films l h
    unfold diaryLoop at h
    by_cases h1 : (site p).status ≠ 200
    · rw [if_pos h1] at h
      exact ih films l h
    · rw [if_neg h1] at h
      by_cases h2 : (site p).entries.isEmpty
      · rw [if_pos h2] at h
        exact ih films l h
      · rw [if_neg h2] at h
        simp at h

/-- Every ordinary diary record carries exactly the seven canonical
keys, in order. -/
theorem mkDiaryRow_keys (e : DiaryEntry) (r : DiaryRow)
    (h : mkDiaryRow e = some r) : r.map Prod.fst = diaryKeys := by
  unfold mkDiaryRow at h
  cases hq : diaryRatingVal e with
  | none => rw [hq] at h; simp at h
  | some rating =>
    rw [hq] at h
    simp only [Option.some.injEq] at h
    rw [← h]
    rfl

/-- A concrete diary entry whose extraction succeeds. -/
def sampleDiaryEntry : DiaryEntry :=
  { date_text := some "12 Mar 2024"
    film_link := some ("Sample Film", "/film/sample-film/")
    year_text := some "(1999)"
    rating_tag := Option.none
    review_text := some "Good." }

/-- A diary site whose page 1 answers with status 200 and one entry. -/
def entryDiarySite : Nat → DiaryPage := fun p =>
  if p = 1 then { status := 200, entries := [sampleDiaryEntry] }
  else { status := 404, entries := [] }

/-- A diary site whose page 1 fails and whose page 2 has one entry. -/
def lateEntryDiarySite : Nat → DiaryPage := fun p =>
  if p = 2 then { status := 200, entries := [sampleDiaryEntry] }
  else { status := 404, entries := [] }

/-- A diary site on which every page fails to fetch. -/
def noEntryDiarySite : Nat → DiaryPage := fun _ =>
  { status := 404, entries := [] }

/-- C6: a diary crawl that processes a page (status 200, at least one
entry found) reaches the politeness delay at line 415, where time.sleep
raises NameError, because scrape_functions.py never imports time; the
delay does not complete and processing does not continue. -/
theorem scrape_diary_missing_time_import :
    scrape_diary entryDiarySite [1] = Except.error (PyErr.nameError "time") := by
  decide

/-- C10, counterexample to the claim as stated: on an input whose second
requested page carries an entry, scrape_diary raises NameError at the
politeness delay instead of returning a list, so it does not return a
non-empty list for every input. -/
theorem scrape_diary_entries_input_raises :
    scrape_diary lateEntryDiarySite [1, 2]
      = Except.error (PyErr.nameError "time") := by
  decide

/-- C10, amended: whenever scrape_diary returns a list at all (which,
given the missing time import, happens exactly when every requested page
either fails to fetch or has no entries), the list is the non-empty
singleton holding the note record; the single key note is not among the
seven keys of ordinary diary records, which every ordinary record
carries exactly. -/
theorem scrape_diary_return_is_note_singleton (site : Nat → DiaryPage)
    (pages : List Nat) (l : List DiaryRow)
    (h : scrape_diary site pages = Except.ok l) :
    l = [noteRow] ∧ l ≠ []
      ∧ noteRow.map Prod.fst = ["note"]
      ∧ "note" ∉ diaryKeys
      ∧ ∀ (e : DiaryEntry) (r : DiaryRow),
          mkDiaryRow e = some r → r.map Prod.fst = diaryKeys := by
  unfold scrape_diary at h
  dsimp only at h
  cases hd : diaryLoop site []
      (if pages = [] then [1] else pages) with
  | error e => rw [hd] at h; simp at h
  | ok films =>
    rw [hd] at h
    have hf : films = [] := diaryLoop_ok site _ [] films hd
    subst hf
    simp at h
    subst h
    exact ⟨rfl, by decide, rfl, by decide, mkDiaryRow_keys⟩

/-- Witness for C10 on a site where every page fails. -/
theorem scrape_diary_return_note_witness :
    scrape_diary noEntryDiarySite [1] = Except.ok [noteRow]
    ∧ ([noteRow] : List DiaryRow) = [noteRow]
    ∧ ([noteRow] : List DiaryRow) ≠ [] :=
  ⟨by decide,
   (scrape_diary_return_is_note_singleton noEntryDiarySite [1] [noteRow]
     (by decide)).1,
   (scrape_diary_return_is_note_singleton noEntryDiarySite [1] [noteRow]
     (by decide)).2.1⟩

/-- A run of digits cannot start at a non-digit character. -/
theorem digitRunLen_zero (c : Char) (cs : List Char) (hc : c.isDigit = false) :
    digitRunLen (c :: cs) = 0 := by
  simp [digitRunLen, List.takeWhile_cons, hc]

/-- The fans pattern cannot match at a position holding a non-digit
character: both alternatives start with a digit. -/
theorem matchFansAlt_nodigit (c : Char) (cs : List Char)
    (hc : c.isDigit = false) : matchFansAlt (c :: cs) = Option.none := by
  simp [matchFansAlt, digitRunLen_zero c cs hc]

/-- On a digit-free input the fans pattern matches nowhere. -/
theorem firstFansMatch_nodigit :
    ∀ cs : List Char, (∀ c ∈ cs, c.isDigit = false) →
      firstFansMatch cs = Option.none := by
  intro cs
  induction cs with
  | nil => intro _; rfl
  | cons c cs ih =>
    intro h
    unfold firstFansMatch
    rw [matchFansAlt_nodigit c cs (h c (List.mem_cons_self c cs))]
    exact ih (fun x hx => h x (List.mem_cons_of_mem c hx))

/-- The K-notation branch evaluates 1.2K to 1200 exactly. -/
theorem fansOf_12K : fansOf (some "1.2K fans") = 1200 := by
  have h1 : firstFansMatch ("1.2K fans".toList)
      = some ('1' :: '.' :: '2' :: 'K' :: []) := by decide
  unfold fansOf
  dsimp only
  rw [h1]
  dsimp only
  rw [if_pos (by decide)]
  rw [show pyFloat (String.mk (('1' :: '.' :: '2' :: 'K' :: []).dropLast))
      = some (((1 : ℕ) : ℚ) + ((2 : ℕ) : ℚ) / 10 ^ (1 : ℕ)) from rfl]
  dsimp only
  rw [show ((((1 : ℕ) : ℚ) + ((2 : ℕ) : ℚ) / 10 ^ (1 : ℕ)) * 1000 : ℚ)
      = (1200 : ℚ) by norm_num]
  unfold pyTrunc
  rw [if_pos (by norm_num)]
  rw [show Rat.floor (1200 : ℚ) = ((1200 : ℤ) : ℚ).floor from by norm_num]
  rw [show ((1200 : ℤ) : ℚ).floor = ⌊((1200 : ℤ) : ℚ)⌋ from rfl]
  norm_num

/-- C7, amended: the K-notation fans parser maps 1.2K to 1200 and maps
empty or digit-free input to 0 without raising (its whole body sits in a
try block falling back to 0); the separator-stripping stats parser maps
3,482 to 3482.  The stats parser, however, raises ValueError on input
without digits instead of yielding 0, as the counterexample shows. -/
theorem compact_number_parsing_behaviour (s : String)
    (hs : ∀ c ∈ s.toList, c.isDigit = false) :
    fansOf (some "1.2K fans") = 1200
    ∧ parseStatTitle (some "3,482") = Except.ok 3482
    ∧ fansOf (some "") = 0
    ∧ fansOf (some s) = 0 := by
  refine ⟨fansOf_12K, by decide, by decide, ?_⟩
  unfold fansOf
  dsimp only
  rw [firstFansMatch_nodigit s.toList hs]

/-- C7, counterexample to the claim as stated: the separator-stripping
parse at lines 241 to 243 applies int to the joined digit groups with no
surrounding try block, so the empty (digit-free) input raises ValueError
instead of parsing to 0. -/
theorem parseStatTitle_empty_raises :
    parseStatTitle (some "") = Except.error PyErr.valueError := by decide

/-- Witness for C7 at the digit-free input fans. -/
theorem compact_number_parsing_witness :
    (∀ c ∈ ("fans".toList), c.isDigit = false)
    ∧ fansOf (some "fans") = 0 :=
  ⟨by decide,
   (compact_number_parsing_behaviour "fans" (by decide)).2.2.2⟩

/-- The isinstance filter at line 114 of diary.py keeps exactly the
dicts. -/
def isScalarPy : PyObj → Bool
  | PyObj.dict _ => false
  | PyObj.list _ => false
  | _ => true

/-- Every assembled CSV row exposes exactly the ten canonical field
names, in declared order. -/
theorem mkCsvRow_keys (d : List (String × PyObj)) :
    (mkCsvRow d).map Prod.fst = csvFieldnames := rfl

/-- Prepending an entry dict prepends its row. -/
theorem rowsOfEntries_cons_dict (d : List (String × PyObj))
    (es : List PyObj) :
    rowsOfEntries (PyObj.dict d :: es) = mkCsvRow d :: rowsOfEntries es := by
  simp [rowsOfEntries, List.filterMap_cons]

/-- On a list of dicts, row assembly is one-to-one: one row per entry,
each with the canonical keys. -/
theorem rowsOfEntries_all_dicts (l : List PyObj)
    (hl : ∀ e ∈ l, isPyDict e = true) :
    (rowsOfEntries l).length = l.length
      ∧ ∀ r ∈ rowsOfEntries l, r.map Prod.fst = csvFieldnames := by
  induction l with
  | nil =>
    refine ⟨rfl, ?_⟩
    intro r hr
    simp [rowsOfEntries] at hr
  | cons e es ih =>
    have he := hl e (List.mem_cons_self e es)
    obtain ⟨ih1, ih2⟩ := ih (fun x hx => hl x (List.mem_cons_of_mem e hx))
    cases e with
    | dict d =>
      rw [rowsOfEntries_cons_dict]
      refine ⟨by simp [ih1], ?_⟩
      intro r hr
      rcases List.mem_cons.mp hr with h | h
      · rw [h]; exact mkCsvRow_keys d
      · exact ih2 r h
    | str s => exact absurd he (by simp [isPyDict])
    | int n => exact absurd he (by simp [isPyDict])
    | bool b => exact absurd he (by simp [isPyDict])
    | null => exact absurd he (by simp [isPyDict])
    | list xs => exact absurd he (by simp [isPyDict])

/-- C9: normalization reduces the recognized shapes to the canonical
schema: an entries mapping holding n sub-record dicts yields exactly n
rows, each exposing exactly the canonical field names; and a scalar
input, which matches none of the recognized shapes, yields the empty
row set without raising. -/
theorem diary_normalization_shapes :
    (∀ m : List (String × PyObj), (∀ p ∈ m, isPyDict p.2 = true) →
      (buildRows (PyObj.dict [("entries", PyObj.dict m)])).length = m.length
      ∧ ∀ r ∈ buildRows (PyObj.dict [("entries", PyObj.dict m)]),
          r.map Prod.fst = csvFieldnames)
    ∧ (∀ v : PyObj, isScalarPy v = true → buildRows v = []) := by
  constructor
  · intro m hm
    have hb : buildRows (PyObj.dict [("entries", PyObj.dict m)])
        = rowsOfEntries (m.map (fun p => p.2)) := rfl
    rw [hb]
    have hl : ∀ e ∈ m.map (fun p => p.2), isPyDict e = true := by
      intro e he
      obtain ⟨p, hp, hpe⟩ := List.mem_map.mp he
      rw [← hpe]
      exact hm p hp
    obtain ⟨h1, h2⟩ := rowsOfEntries_all_dicts _ hl
    exact ⟨by rw [h1, List.length_map], h2⟩
  · intro v hv
    cases v with
    | dict d => simp [isScalarPy] at hv
    | list l => simp [isScalarPy] at hv
    | str s => unfold buildRows; split <;> rfl
    | int n => unfold buildRows; split <;> rfl
    | bool b => unfold buildRows; split <;> rfl
    | null => unfold buildRows; split <;> rfl

/-- The raw entries mapping of the C9 witness: two sub-record dicts. -/
def witnessEntries : List (String × PyObj) :=
  [("a", PyObj.dict [("name", PyObj.str "F1")]), ("b", PyObj.dict [])]

/-- Witness for C9: the two-entry mapping yields exactly two rows, and a
scalar input yields none. -/
theorem diary_normalization_witness :
    (∀ p ∈ witnessEntries, isPyDict p.2 = true)
    ∧ (buildRows (PyObj.dict [("entries", PyObj.dict witnessEntries)])).length = 2
    ∧ buildRows (PyObj.int 5) = [] :=
  ⟨by decide,
   ((diary_normalization_shapes.1 witnessEntries (by decide)).1).trans (by rfl),
   diary_normalization_shapes.2 (PyObj.int 5) (by decide)⟩
